import Mathlib

/-!
# ip4s native glue layer (`idn.c`)

`idn.c` exports two C functions, `ip4s_uidna_IDNToASCII` and
`ip4s_uidna_IDNToUnicode`.  The body of each is a single `return` of a call
into ICU (`uidna_IDNToASCII`, `uidna_IDNToUnicode`, declared by
`unicode/uidna.h`).  ICU is linked by the user and is not part of the sources,
so its two entry points are a parameter of the development: a function body is
embedded as the tree of library calls it performs, and it is run against an
arbitrary library over an arbitrary world state.
-/

namespace Idn

/-- A C pointer value (`const UChar *`, `UChar *`, `UParseError *`,
`UErrorCode *`): a machine address.  The shim never dereferences one. -/
structure Ptr where
  addr : Nat
deriving DecidableEq, Repr

/-- Values of C type `int32_t`.  The shim performs no arithmetic and no
conversion on them, so no wrap-around can occur. -/
abbrev int32_t := Int

/-- The two ICU entry points the shim calls. -/
inductive LibFn where
  | uidna_IDNToASCII
  | uidna_IDNToUnicode
deriving DecidableEq, Repr

/-- The actual arguments of an ICU call, in the order of the prototype in
`unicode/uidna.h`. -/
structure Args where
  src : Ptr
  srcLength : int32_t
  dest : Ptr
  destCapacity : int32_t
  options : int32_t
  parseError : Ptr
  status : Ptr
deriving DecidableEq, Repr

/-- Behaviour of a C function body of this translation unit: it either returns
a value, or calls a library function and continues with the value returned. -/
inductive Prog (α : Type) where
  | ret (v : α) : Prog α
  | call (f : LibFn) (a : Args) (k : int32_t → Prog α) : Prog α

/-- A linked library over world states `σ` (all of memory together with
whatever state the library keeps).  `none` is a call that does not return. -/
abbrev Lib (σ : Type) := LibFn → Args → σ → Option (int32_t × σ)

/-- What a run did: the library calls made, in order, and the value returned
together with the final world (`none` when the run did not return). -/
structure Outcome (σ α : Type) where
  calls : List (LibFn × Args)
  result : Option (α × σ)

/-- Run a function body against a library from an initial world. -/
def Prog.exec {σ α : Type} (lib : Lib σ) : Prog α → σ → Outcome σ α
  | .ret v, s => ⟨[], some (v, s)⟩
  | .call f a k, s =>
    match lib f a s with
    | none => ⟨[(f, a)], none⟩
    | some (r, s') =>
      let o := (k r).exec lib s'
      ⟨(f, a) :: o.calls, o.result⟩

/-- Source `idn.c`, lines 14-19. -/
def ip4s_uidna_IDNToASCII (src : Ptr) (srcLength : int32_t) (dest : Ptr)
    (destCapacity : int32_t) (options : int32_t) (parseError : Ptr)
    (status : Ptr) : Prog int32_t :=
  .call .uidna_IDNToASCII
    ⟨src, srcLength, dest, destCapacity, options, parseError, status⟩ .ret

/-- Source `idn.c`, lines 21-27. -/
def ip4s_uidna_IDNToUnicode (src : Ptr) (srcLength : int32_t) (dest : Ptr)
    (destCapacity : int32_t) (options : int32_t) (parseError : Ptr)
    (status : Ptr) : Prog int32_t :=
  .call .uidna_IDNToUnicode
    ⟨src, srcLength, dest, destCapacity, options, parseError, status⟩ .ret

/-- The exported function that forwards to entry point `f`, applied to an
argument record: `ip4s_uidna_IDNToASCII` or `ip4s_uidna_IDNToUnicode`. -/
def exported (f : LibFn) (a : Args) : Prog int32_t :=
  match f with
  | .uidna_IDNToASCII =>
    ip4s_uidna_IDNToASCII a.src a.srcLength a.dest a.destCapacity a.options
      a.parseError a.status
  | .uidna_IDNToUnicode =>
    ip4s_uidna_IDNToUnicode a.src a.srcLength a.dest a.destCapacity a.options
      a.parseError a.status

/-- What a caller can see of a run under an observation `out` of the final
world: the value returned and the observation, or `none` for no return. -/
def observe {σ α ω : Type} (out : σ → ω) (r : Option (α × σ)) : Option (α × ω) :=
  r.map fun p => (p.1, out p.2)

/-- A library whose calls are functions of their arguments: two calls of the
same entry point with the same arguments, from worlds that agree on the memory
reachable from the arguments (`reach`), return the same value and leave the
same contents in the output locations (`out`). -/
def LibIsFunction {σ ρ ω : Type} (lib : Lib σ) (reach : Args → σ → ρ)
    (out : Args → σ → ω) : Prop :=
  ∀ (f : LibFn) (a : Args) (s₁ s₂ : σ), reach a s₁ = reach a s₂ →
    observe (out a) (lib f a s₁) = observe (out a) (lib f a s₂)

/-! ### A small concrete world, used to instantiate the general statements -/

/-- A toy world: the cell `*status`, the buffer `dest`, and a counter standing
for library-internal state that earlier calls have changed. -/
structure ToyWorld where
  status : Int
  dest : List Int
  hidden : Nat
deriving DecidableEq, Repr

/-- A toy library following ICU's convention: with a failure code already in
`*status` it returns 0 and writes nothing; otherwise it fills `dest`. -/
def toyLib : Lib ToyWorld := fun f _ s =>
  if 0 < s.status then some (0, { s with hidden := s.hidden + 1 })
  else
    match f with
    | .uidna_IDNToASCII => some (2, { s with dest := [120, 110], hidden := s.hidden + 1 })
    | .uidna_IDNToUnicode => some (1, { s with dest := [252], hidden := s.hidden + 1 })

/-- Reachable memory of the toy world: `*status` and `dest`. -/
def toyReach : Args → ToyWorld → Int × List Int := fun _ s => (s.status, s.dest)

/-- Sample arguments. -/
def toyArgs : Args := ⟨⟨16⟩, 9, ⟨64⟩, 32, 0, ⟨128⟩, ⟨256⟩⟩

/-! ### Running a single forwarded call -/

theorem exec_call_ret {σ : Type} (lib : Lib σ) (f : LibFn) (a : Args) (s : σ) :
    ((Prog.call f a Prog.ret).exec lib s).calls = [(f, a)] ∧
    ((Prog.call f a Prog.ret).exec lib s).result = lib f a s := by
  unfold Prog.exec
  cases h : lib f a s with
  | none => simp
  | some p =>
    obtain ⟨r, s'⟩ := p
    simp [Prog.exec]

theorem exec_exported {σ : Type} (lib : Lib σ) (f : LibFn) (a : Args) (s : σ) :
    ((exported f a).exec lib s).calls = [(f, a)] ∧
    ((exported f a).exec lib s).result = lib f a s := by
  cases f
  · exact exec_call_ret lib LibFn.uidna_IDNToASCII a s
  · exact exec_call_ret lib LibFn.uidna_IDNToUnicode a s

theorem toyLib_isFunction : LibIsFunction toyLib toyReach toyReach := by
  intro f a s₁ s₂ h
  obtain ⟨st₁, d₁, h₁⟩ := s₁
  obtain ⟨st₂, d₂, h₂⟩ := s₂
  simp only [toyReach, Prod.mk.injEq] at h
  obtain ⟨rfl, rfl⟩ := h
  cases f <;> by_cases hs : 0 < st₁ <;> simp [observe, toyLib, toyReach, hs]

/-! ### The claims about the two exported functions -/

/-- C1: `ip4s_uidna_IDNToASCII` is a pass-through.  For every library, every
initial world and every seven arguments, the run makes exactly one library
call, to `uidna_IDNToASCII`, with the seven arguments received in the order
received, and its result (the `int32_t` returned and the world left, or no
return at all) is exactly the result of that call. -/
theorem ip4s_uidna_IDNToASCII_passthrough {σ : Type} (lib : Lib σ) (s : σ)
    (src : Ptr) (srcLength : int32_t) (dest : Ptr) (destCapacity options : int32_t)
    (parseError status : Ptr) :
    ((ip4s_uidna_IDNToASCII src srcLength dest destCapacity options parseError
        status).exec lib s).calls =
      [(LibFn.uidna_IDNToASCII,
        Args.mk src srcLength dest destCapacity options parseError status)] ∧
    ((ip4s_uidna_IDNToASCII src srcLength dest destCapacity options parseError
        status).exec lib s).result =
      lib LibFn.uidna_IDNToASCII
        (Args.mk src srcLength dest destCapacity options parseError status) s :=
  exec_call_ret lib _ _ s

/-- C2: `ip4s_uidna_IDNToUnicode` is a pass-through.  For every library, every
initial world and every seven arguments, the run makes exactly one library
call, to `uidna_IDNToUnicode` and not to `uidna_IDNToASCII`, with the seven
arguments received in the order received, and its result (the `int32_t`
returned and the world left, or no return at all) is exactly the result of
that call. -/
theorem ip4s_uidna_IDNToUnicode_passthrough {σ : Type} (lib : Lib σ) (s : σ)
    (src : Ptr) (srcLength : int32_t) (dest : Ptr) (destCapacity options : int32_t)
    (parseError status : Ptr) :
    ((ip4s_uidna_IDNToUnicode src srcLength dest destCapacity options parseError
        status).exec lib s).calls =
      [(LibFn.uidna_IDNToUnicode,
        Args.mk src srcLength dest destCapacity options parseError status)] ∧
    LibFn.uidna_IDNToASCII ∉
      ((ip4s_uidna_IDNToUnicode src srcLength dest destCapacity options parseError
        status).exec lib s).calls.map Prod.fst ∧
    ((ip4s_uidna_IDNToUnicode src srcLength dest destCapacity options parseError
        status).exec lib s).result =
      lib LibFn.uidna_IDNToUnicode
        (Args.mk src srcLength dest destCapacity options parseError status) s := by
  have h := exec_call_ret lib LibFn.uidna_IDNToUnicode
    (Args.mk src srcLength dest destCapacity options parseError status) s
  refine ⟨h.1, ?_, h.2⟩
  unfold ip4s_uidna_IDNToUnicode
  rw [h.1]
  simp

/-- C3: the wrappers are stateless.  Given a library whose calls are functions
of their arguments and of the memory reachable from them, two calls of a
wrapper (either one) with equal arguments, from any two worlds (whatever
earlier calls produced them) that agree on the memory reachable from the
arguments, return the same value and leave the same contents in the output
locations `dest`, `*parseError` and `*status`. -/
theorem wrappers_stateless {σ ρ ω : Type} (lib : Lib σ) (reach : Args → σ → ρ)
    (out : Args → σ → ω) (hlib : LibIsFunction lib reach out) (f : LibFn) (a : Args)
    (s₁ s₂ : σ) (hreach : reach a s₁ = reach a s₂) :
    observe (out a) ((exported f a).exec lib s₁).result =
      observe (out a) ((exported f a).exec lib s₂).result := by
  rw [(exec_exported lib f a s₁).2, (exec_exported lib f a s₂).2]
  exact hlib f a s₁ s₂ hreach

/-- Witness for C3: the toy library is a function of its arguments, the two toy
worlds differ only in library-internal state, and `ip4s_uidna_IDNToASCII`
returns 2 with `dest` filled from both. -/
theorem wrappers_stateless_witness :
    LibIsFunction toyLib toyReach toyReach ∧
    toyReach toyArgs ⟨0, [], 0⟩ = toyReach toyArgs ⟨0, [], 7⟩ ∧
    observe (toyReach toyArgs)
        ((exported LibFn.uidna_IDNToASCII toyArgs).exec toyLib ⟨0, [], 0⟩).result =
      observe (toyReach toyArgs)
        ((exported LibFn.uidna_IDNToASCII toyArgs).exec toyLib ⟨0, [], 7⟩).result ∧
    observe (toyReach toyArgs)
        ((exported LibFn.uidna_IDNToASCII toyArgs).exec toyLib ⟨0, [], 7⟩).result =
      some (2, (0, [120, 110])) :=
  ⟨toyLib_isFunction, rfl,
    wrappers_stateless toyLib toyReach toyReach toyLib_isFunction
      LibFn.uidna_IDNToASCII toyArgs ⟨0, [], 0⟩ ⟨0, [], 7⟩ rfl,
    by decide⟩

/-- C10: the wrappers add no effect and no error handling.  For either
wrapper, every library and every initial world (also one whose `*status`
already holds a failure): the run makes the single library call and nothing
else, handing over `src` and `options` as received; whatever is observed of the
world after the wrapper (contents of `dest`, `*parseError`, `*status`) is what
that call left; `*status` holds a failure code after the wrapper exactly when
the library call left one there; and a location the library call leaves as it
was (`src`, under the `const` contract) is as it was after the wrapper. -/
theorem wrappers_add_no_effect {σ β : Type} (lib : Lib σ) (obs : σ → β)
    (load : σ → Ptr → int32_t) (failure : int32_t → Prop) (f : LibFn) (a : Args)
    (s : σ) :
    ((exported f a).exec lib s).calls = [(f, a)] ∧
    (∀ c ∈ ((exported f a).exec lib s).calls,
      c.2.src = a.src ∧ c.2.options = a.options) ∧
    observe obs ((exported f a).exec lib s).result = observe obs (lib f a s) ∧
    ((∃ r s', ((exported f a).exec lib s).result = some (r, s') ∧
        failure (load s' a.status)) ↔
      ∃ r s', lib f a s = some (r, s') ∧ failure (load s' a.status)) ∧
    (∀ p : Ptr, (∀ r s', lib f a s = some (r, s') → load s' p = load s p) →
      ∀ r s', ((exported f a).exec lib s).result = some (r, s') →
        load s' p = load s p) := by
  obtain ⟨hc, hr⟩ := exec_exported lib f a s
  rw [hc, hr]
  refine ⟨rfl, ?_, rfl, Iff.rfl, fun _ h => h⟩
  intro c hmem
  rw [List.mem_singleton] at hmem
  subst hmem
  exact ⟨rfl, rfl⟩

end Idn
